import Mathlib

/-!
A shallow embedding of `fpv_detector.py` (repository `alphafox02/FPV_WD`).

The program reads newline-terminated records from a serial port, parses each
as JSON, inspects the `type` field for logging, attaches GPS coordinates
(`gps_lat`, `gps_lon`) obtained from gpsd, and publishes the enriched record
over ZMQ.  The embedding below models:

* JSON-decoded Python values (`Json`), with numbers as rationals (the program
  only stores and compares numbers, never performs arithmetic on them);
* the Python dict operations the program uses (`.get` with a default,
  item assignment, the `in` substring/membership operator), including the
  exceptions (`AttributeError`, `TypeError`) they raise on ill-typed
  operands, which the program's blanket `except Exception` handler catches;
* `get_gps_location` over an abstract gpsd response (the gps3 library is an
  external collaborator; its `next()` either yields nothing — `StopIteration`
  or falsy data — or a TPV mapping with optional numeric `lat`/`lon`);
* the per-record body of `main`'s loop (parse, type inspection, GPS fetch,
  coordinate assignment, publish) and the loop itself;
* the `read_serial` reconnecting generator over a finite trace of transport
  events (connection attempts, line reads, `serial.SerialException`s).

Publishing is modelled as producing the enriched `Json` value; logging as a
list of the log entries the loop body emits.
-/

namespace FpvDetector

/-- A JSON-decoded Python value.  Numbers are modelled as rationals: the
program never does arithmetic on them, it only stores, compares and
re-serializes them, so the int/float distinction is immaterial here. -/
inductive Json where
  | null : Json
  | bool (b : Bool) : Json
  | num (q : ℚ) : Json
  | str (s : String) : Json
  | arr (elems : List Json) : Json
  | obj (fields : List (String × Json)) : Json

/-- Lookup in a Python dict modelled as an association list (keys produced by
`json.loads` are unique; lookup returns the first binding). -/
def dictGet : List (String × Json) → String → Option Json
  | [], _ => none
  | p :: rest, k => if p.1 = k then some p.2 else dictGet rest k

/-- Python dict item assignment `d[k] = v`: replaces the value of an existing
key in place, otherwise appends the new binding at the end (insertion
order). -/
def setKey : List (String × Json) → String → Json → List (String × Json)
  | [], k, v => [(k, v)]
  | p :: rest, k, v => if p.1 = k then (p.1, v) :: rest else p :: setKey rest k v

/-- Python `==` against a string literal: true only for an equal `str`
value (cross-type comparison yields `False`, not an error). -/
def Json.eqStr : Json → String → Bool
  | Json.str s, t => s = t
  | _, _ => false

/-- Whether a decoded value is a JSON object (a Python dict). -/
def Json.isObj : Json → Bool
  | Json.obj _ => true
  | _ => false

/-- The Python exceptions the loop body can raise; all are caught by the
blanket `except Exception` handler at the bottom of the loop. -/
inductive PyError where
  | attributeError : PyError
  | typeError : PyError
deriving DecidableEq

/-- Python `x.get(k, d)`: dict lookup with default; raises `AttributeError`
when `x` is not a dict (ints, strings, lists, booleans and `None` have no
`.get` method). -/
def pyGet (j : Json) (k : String) (d : Json) : Except PyError Json :=
  match j with
  | Json.obj fs => Except.ok ((dictGet fs k).getD d)
  | _ => Except.error PyError.attributeError

/-- Python `x[k] = v` on a decoded value: succeeds only on a dict, raising
`TypeError` otherwise. -/
def pySetItem (j : Json) (k : String) (v : Json) : Except PyError Json :=
  match j with
  | Json.obj fs => Except.ok (Json.obj (setKey fs k v))
  | _ => Except.error PyError.typeError

/-- `needle` is a leading segment of `hay` (character lists). -/
def listHasPre : List Char → List Char → Bool
  | [], _ => true
  | _ :: _, [] => false
  | c :: cs, d :: ds => c == d && listHasPre cs ds

/-- `needle` occurs as a contiguous segment of `hay` (character lists). -/
def listHasSub (needle : List Char) : List Char → Bool
  | [] => listHasPre needle []
  | d :: ds => listHasPre needle (d :: ds) || listHasSub needle ds

/-- Python `needle in hay` for strings: substring containment. -/
def pyInStr (needle hay : String) : Bool :=
  listHasSub needle.toList hay.toList

/-- Python `needle in x` for a string needle against a decoded value:
substring test on a `str`, element membership on a list, key membership on a
dict; `TypeError` on non-iterable values (numbers, booleans, `None`). -/
def pyIn (needle : String) : Json → Except PyError Bool
  | Json.str s => Except.ok (pyInStr needle s)
  | Json.arr xs => Except.ok (xs.any fun e => Json.eqStr e needle)
  | Json.obj fs => Except.ok (fs.any fun p => p.1 = needle)
  | _ => Except.error PyError.typeError

/-- The log entries the loop body can emit (the claim-relevant ones). -/
inductive LogMsg where
  | bootMsg : LogMsg
  | newContact : LogMsg
  | lockUpdate : LogMsg
  | lostContact : LogMsg
  | parseFail : LogMsg
  | unexpectedError : LogMsg
deriving DecidableEq

/-- The `stat` substring dispatch of the `nodeAlert` branch
(`fpv_detector.py` lines 136-141): the three `in` checks tried in order,
first match wins, each emitting its own log entry, no match emitting none.
Raises `TypeError` (propagated) when `stat` is not iterable. -/
def statLogs (stat : Json) : Except PyError (List LogMsg) :=
  match pyIn "NEW CONTACT LOCK" stat with
  | Except.error e => Except.error e
  | Except.ok true => Except.ok [LogMsg.newContact]
  | Except.ok false =>
    match pyIn "LOCK UPDATE" stat with
    | Except.error e => Except.error e
    | Except.ok true => Except.ok [LogMsg.lockUpdate]
    | Except.ok false =>
      match pyIn "LOST CONTACT LOCK" stat with
      | Except.error e => Except.error e
      | Except.ok true => Except.ok [LogMsg.lostContact]
      | Except.ok false => Except.ok []

/-- The `type` inspection of the loop body (`fpv_detector.py` lines
130-141): `data.get("type", "")`, the `nodeMsg` boot log, and the
`nodeAlert` branch's defensive `data.get("msg", {}).get("stat", "")`
followed by the substring dispatch. -/
def typeLogs (data : Json) : Except PyError (List LogMsg) :=
  match pyGet data "type" (Json.str "") with
  | Except.error e => Except.error e
  | Except.ok msg_type =>
    if Json.eqStr msg_type "nodeMsg" then Except.ok [LogMsg.bootMsg]
    else if Json.eqStr msg_type "nodeAlert" then
      match pyGet data "msg" (Json.obj []) with
      | Except.error e => Except.error e
      | Except.ok m =>
        match pyGet m "stat" (Json.str "") with
        | Except.error e => Except.error e
        | Except.ok stat => statLogs stat
    else Except.ok []

/-- The gps3 `DataStream.TPV` mapping, restricted to the two fields the
program reads.  Per the gpsd contract an individual report may lack a
numeric `lat`/`lon` (gps3 then holds no usable value), modelled as
`Option ℚ`. -/
structure TPV where
  lat : Option ℚ
  lon : Option ℚ
deriving DecidableEq

/-- The `DataStream` state before any report has been unpacked. -/
def initTPV : TPV := ⟨none, none⟩

/-- Outcome of one `gps_socket.next()` call: `noData` models both a
`StopIteration` and a falsy `new_data`; `report` models truthy data that
`data_stream.unpack` turns into a TPV mapping. -/
inductive GpsNext where
  | noData : GpsNext
  | report (t : TPV) : GpsNext
deriving DecidableEq

/-- `get_gps_location` (`fpv_detector.py` lines 68-80): on no data the
default `(0.0, 0.0)` is returned and the stream state is untouched; on a
report the stream state is replaced by the unpacked mapping and
`TPV.get('lat', 0.0)` / `TPV.get('lon', 0.0)` are read from it. -/
def get_gps_location : GpsNext → TPV → (ℚ × ℚ) × TPV
  | GpsNext.noData, t => ((0, 0), t)
  | GpsNext.report r, _ => ((r.lat.getD 0, r.lon.getD 0), r)

/-- Result of `json.loads` on one raw line: `badJson` models a
`json.JSONDecodeError`, `parsed` a successful decode. -/
inductive RecordInput where
  | badJson : RecordInput
  | parsed (j : Json) : RecordInput

/-- The environment's contribution to one loop iteration: the parse outcome
of the line and the gpsd response that `gps_socket.next()` would give if
called during this iteration. -/
structure RecordEnv where
  input : RecordInput
  gps : GpsNext

/-- Observable outcome of one loop iteration: the published enriched record
(if any) and the log entries emitted. -/
structure RecOut where
  published : Option Json
  logs : List LogMsg

/-- One iteration of `main`'s per-line loop (`fpv_detector.py` lines
126-163): parse, type inspection, GPS selection (fresh fix when mobile and
connected, caches when stationary), coordinate assignment, publish; a
`JSONDecodeError` logs a parse failure, any other exception logs an
unexpected error, and in either case nothing is published.  Returns the
outcome together with the updated `DataStream` state. -/
def processRecord (stationary gpsOpen : Bool) (latCache lonCache : ℚ)
    (tpv : TPV) (env : RecordEnv) : RecOut × TPV :=
  match env.input with
  | RecordInput.badJson => (⟨none, [LogMsg.parseFail]⟩, tpv)
  | RecordInput.parsed data =>
    match typeLogs data with
    | Except.error _ => (⟨none, [LogMsg.unexpectedError]⟩, tpv)
    | Except.ok logs =>
      let gpsRes :=
        if !stationary && gpsOpen then get_gps_location env.gps tpv
        else ((latCache, lonCache), tpv)
      match pySetItem data "gps_lat" (Json.num gpsRes.1.1) with
      | Except.error _ => (⟨none, logs ++ [LogMsg.unexpectedError]⟩, gpsRes.2)
      | Except.ok d1 =>
        match pySetItem d1 "gps_lon" (Json.num gpsRes.1.2) with
        | Except.error _ => (⟨none, logs ++ [LogMsg.unexpectedError]⟩, gpsRes.2)
        | Except.ok d2 => (⟨some d2, logs⟩, gpsRes.2)

/-- `main`'s per-line loop over a finite trace of record environments,
threading the `DataStream` state. -/
def runLoop (stationary gpsOpen : Bool) (latCache lonCache : ℚ) :
    TPV → List RecordEnv → List RecOut
  | _, [] => []
  | tpv, env :: rest =>
    let r := processRecord stationary gpsOpen latCache lonCache tpv env
    r.1 :: runLoop stationary gpsOpen latCache lonCache r.2 rest

/-- `main` (`fpv_detector.py` lines 97-163) restricted to its observable
record processing: in stationary mode the GPS is read exactly once at
startup into `lat_cache`/`lon_cache` and the connection is closed (so the
loop condition `gps_socket and data_stream` is false); otherwise the
caches stay `(0.0, 0.0)` and a persistent connection is kept open. -/
def main (stationary : Bool) (startGps : GpsNext) (envs : List RecordEnv) :
    List RecOut :=
  if stationary then
    let res := get_gps_location startGps initTPV
    runLoop true false res.1.1 res.1.2 initTPV envs
  else
    runLoop false true 0 0 initTPV envs

/-- `RECONNECT_DELAY` (`fpv_detector.py` line 35): seconds slept before a
reconnect attempt. -/
def RECONNECT_DELAY : Nat := 5

/-- The whitespace characters `str.strip()` removes (the ASCII ones; the
sensor feed is ASCII JSON). -/
def isPySpace (c : Char) : Bool :=
  c == ' ' || c == '\t' || c == '\n' || c == '\r' ||
    c == Char.ofNat 11 || c == Char.ofNat 12

/-- `str.strip()` on a character list: drop whitespace from the front, then
from the back (via reversal). -/
def pyStripList (cs : List Char) : List Char :=
  (((cs.dropWhile isPySpace).reverse.dropWhile isPySpace)).reverse

/-- Python `s.strip()`. -/
def pyStrip (s : String) : String :=
  String.mk (pyStripList s.toList)

/-- Outcome of one `ser.readline()` call inside the inner loop: `line s`
models a returned byte string whose lossy UTF-8 decode is `s` (the decode
with `errors="replace"` is total, so every byte result is some string);
`ioFail` models a `serial.SerialException` raised by the read. -/
inductive ReadEvent where
  | line (s : String) : ReadEvent
  | ioFail : ReadEvent
deriving DecidableEq

/-- Outcome of one pass of `read_serial`'s outer loop: the `serial.Serial`
open either fails with a `SerialException` or yields a connection whose
subsequent reads are described by a list of `ReadEvent`s (a finite
observation window; events listed after an `ioFail` are unreachable since
the exception aborts the session). -/
inductive Attempt where
  | openFail : Attempt
  | opened (reads : List ReadEvent) : Attempt
deriving DecidableEq

/-- Observable actions of the `read_serial` generator: a line emitted to
(yielded at) the consumer, or a `time.sleep` of the given number of
seconds. -/
inductive Act where
  | emit (s : String) : Act
  | sleep (secs : Nat) : Act
deriving DecidableEq

/-- The inner `while True` read loop of `read_serial` (`fpv_detector.py`
lines 88-92): each read is decoded and stripped; a non-empty result is
yielded, an empty one ignored; a `SerialException` escapes to the `except`
handler, which sleeps `RECONNECT_DELAY` seconds (line 95) before the outer
loop reconnects. -/
def actsOfReads : List ReadEvent → List Act
  | [] => []
  | ReadEvent.ioFail :: _ => [Act.sleep RECONNECT_DELAY]
  | ReadEvent.line s :: rest =>
    if pyStrip s = "" then actsOfReads rest
    else Act.emit (pyStrip s) :: actsOfReads rest

/-- `read_serial` (`fpv_detector.py` lines 82-95) over a finite trace of
connection attempts: a failed open sleeps `RECONNECT_DELAY` seconds and
retries; an established connection runs the inner read loop, and after its
failure the outer loop proceeds with the next attempt. -/
def read_serial : List Attempt → List Act
  | [] => []
  | Attempt.openFail :: rest => Act.sleep RECONNECT_DELAY :: read_serial rest
  | Attempt.opened reads :: rest => actsOfReads reads ++ read_serial rest

/-- Field lookup on a decoded record (for stating properties of published
objects). -/
def jGet : Json → String → Option Json
  | Json.obj fs, k => dictGet fs k
  | _, _ => none

/-- The field names of a decoded record. -/
def jKeys : Json → List String
  | Json.obj fs => fs.map Prod.fst
  | _ => []

/-- Whether a value supports Python's `in` test against a string needle
(strings, lists and dicts do; numbers, booleans and `None` raise
`TypeError`). -/
def statTestable : Json → Bool
  | Json.str _ => true
  | Json.arr _ => true
  | Json.obj _ => true
  | _ => false

/-- The syntactic condition under which the `type` inspection of the loop
body cannot raise: either the record is not a `nodeAlert`, or its
(defensively defaulted) `msg` value is an object whose (defensively
defaulted) `stat` value supports the substring test.  Outside this
condition the code raises (`AttributeError` on `msg.get` or `TypeError` on
`in`) and the blanket handler drops the record. -/
def alertPathOk (fields : List (String × Json)) : Bool :=
  if Json.eqStr ((dictGet fields "type").getD (Json.str "")) "nodeAlert" then
    match (dictGet fields "msg").getD (Json.obj []) with
    | Json.obj m => statTestable ((dictGet m "stat").getD (Json.str ""))
    | _ => false
  else true

theorem dictGet_setKey_self (fs : List (String × Json)) (k : String) (v : Json) :
    dictGet (setKey fs k v) k = some v := by
  induction fs with
  | nil => simp [setKey, dictGet]
  | cons p rest ih =>
    by_cases h : p.1 = k
    · simp [setKey, dictGet, h]
    · simp [setKey, dictGet, h, ih]

theorem dictGet_setKey_other (fs : List (String × Json)) (k k' : String) (v : Json)
    (h : k' ≠ k) : dictGet (setKey fs k v) k' = dictGet fs k' := by
  have hks : ¬ k = k' := fun e => h e.symm
  induction fs with
  | nil => simp [setKey, dictGet, hks]
  | cons p rest ih =>
    by_cases hp : p.1 = k
    · simp [setKey, dictGet, hp, hks]
    · simp only [setKey, if_neg hp, dictGet]
      by_cases hk : p.1 = k' <;> simp [hk, ih]

theorem mem_keys_setKey (fs : List (String × Json)) (k : String) (v : Json) (k' : String) :
    k' ∈ (setKey fs k v).map Prod.fst ↔ k' ∈ fs.map Prod.fst ∨ k' = k := by
  induction fs with
  | nil => simp [setKey]
  | cons p rest ih =>
    by_cases hp : p.1 = k
    · subst hp; simp [setKey]; tauto
    · simp [setKey, hp, ih]; tauto

theorem statLogs_str (s : String) :
    statLogs (Json.str s) = Except.ok
      (if pyInStr "NEW CONTACT LOCK" s then [LogMsg.newContact]
       else if pyInStr "LOCK UPDATE" s then [LogMsg.lockUpdate]
       else if pyInStr "LOST CONTACT LOCK" s then [LogMsg.lostContact]
       else []) := by
  by_cases h1 : pyInStr "NEW CONTACT LOCK" s <;>
    by_cases h2 : pyInStr "LOCK UPDATE" s <;>
      by_cases h3 : pyInStr "LOST CONTACT LOCK" s <;>
        simp [statLogs, pyIn, h1, h2, h3]

theorem pyIn_ok_of_testable (needle : String) (s : Json) (h : statTestable s = true) :
    ∃ b, pyIn needle s = Except.ok b := by
  cases s <;> simp [statTestable] at h <;> simp [pyIn]

theorem statLogs_ok_of_testable (s : Json) (h : statTestable s = true) :
    ∃ ls, statLogs s = Except.ok ls := by
  obtain ⟨b1, h1⟩ := pyIn_ok_of_testable "NEW CONTACT LOCK" s h
  obtain ⟨b2, h2⟩ := pyIn_ok_of_testable "LOCK UPDATE" s h
  obtain ⟨b3, h3⟩ := pyIn_ok_of_testable "LOST CONTACT LOCK" s h
  cases b1 <;> cases b2 <;> cases b3 <;>
    simp only [statLogs, h1, h2, h3] <;> exact ⟨_, rfl⟩

theorem typeLogs_not_obj (j : Json) (h : j.isObj = false) :
    typeLogs j = Except.error PyError.attributeError := by
  cases j <;> simp [Json.isObj] at h ⊢ <;> rfl

theorem typeLogs_ok_of_alertPathOk (fs : List (String × Json))
    (h : alertPathOk fs = true) : ∃ ls, typeLogs (Json.obj fs) = Except.ok ls := by
  by_cases hmsg : Json.eqStr ((dictGet fs "type").getD (Json.str "")) "nodeMsg"
  · exact ⟨[LogMsg.bootMsg], by simp [typeLogs, pyGet, hmsg]⟩
  · by_cases hA : Json.eqStr ((dictGet fs "type").getD (Json.str "")) "nodeAlert"
    · unfold alertPathOk at h
      rw [if_pos hA] at h
      cases hm : (dictGet fs "msg").getD (Json.obj []) with
      | obj m =>
        rw [hm] at h
        have h' : statTestable ((dictGet m "stat").getD (Json.str "")) = true := h
        obtain ⟨ls, hls⟩ := statLogs_ok_of_testable _ h'
        exact ⟨ls, by simp [typeLogs, pyGet, hmsg, hA, hm, hls]⟩
      | null => rw [hm] at h; simp at h
      | bool b => rw [hm] at h; simp at h
      | num q => rw [hm] at h; simp at h
      | str s => rw [hm] at h; simp at h
      | arr xs => rw [hm] at h; simp at h
    · exact ⟨[], by simp [typeLogs, pyGet, hmsg, hA]⟩

theorem processRecord_parsed_obj_err (stationary gpsOpen : Bool) (latC lonC : ℚ)
    (tpv : TPV) (g : GpsNext) (fs : List (String × Json)) (e : PyError)
    (h : typeLogs (Json.obj fs) = Except.error e) :
    processRecord stationary gpsOpen latC lonC tpv ⟨RecordInput.parsed (Json.obj fs), g⟩ =
      (⟨none, [LogMsg.unexpectedError]⟩, tpv) := by
  simp [processRecord, h]

theorem processRecord_parsed_obj_ok (stationary gpsOpen : Bool) (latC lonC : ℚ)
    (tpv : TPV) (g : GpsNext) (fs : List (String × Json)) (logs : List LogMsg)
    (h : typeLogs (Json.obj fs) = Except.ok logs) :
    processRecord stationary gpsOpen latC lonC tpv ⟨RecordInput.parsed (Json.obj fs), g⟩ =
      (⟨some (Json.obj (setKey
          (setKey fs "gps_lat" (Json.num
            (if !stationary && gpsOpen then (get_gps_location g tpv).1.1 else latC)))
          "gps_lon" (Json.num
            (if !stationary && gpsOpen then (get_gps_location g tpv).1.2 else lonC)))),
        logs⟩,
       if !stationary && gpsOpen then (get_gps_location g tpv).2 else tpv) := by
  by_cases hg : !stationary && gpsOpen <;> simp [processRecord, h, pySetItem, hg]

theorem published_some_inv (stationary gpsOpen : Bool) (latC lonC : ℚ)
    (tpv : TPV) (g : GpsNext) (fs : List (String × Json)) (o : Json)
    (h : (processRecord stationary gpsOpen latC lonC tpv
      ⟨RecordInput.parsed (Json.obj fs), g⟩).1.published = some o) :
    ∃ logs, typeLogs (Json.obj fs) = Except.ok logs ∧
      o = Json.obj (setKey
        (setKey fs "gps_lat" (Json.num
          (if !stationary && gpsOpen then (get_gps_location g tpv).1.1 else latC)))
        "gps_lon" (Json.num
          (if !stationary && gpsOpen then (get_gps_location g tpv).1.2 else lonC))) := by
  cases htl : typeLogs (Json.obj fs) with
  | error e =>
    rw [processRecord_parsed_obj_err stationary gpsOpen latC lonC tpv g fs e htl] at h
    simp at h
  | ok logs =>
    rw [processRecord_parsed_obj_ok stationary gpsOpen latC lonC tpv g fs logs htl] at h
    exact ⟨logs, rfl, (Option.some.inj h).symm⟩

theorem enriched_lat (fs : List (String × Json)) (a b : Json) :
    dictGet (setKey (setKey fs "gps_lat" a) "gps_lon" b) "gps_lat" = some a := by
  rw [dictGet_setKey_other _ "gps_lon" "gps_lat" b (by decide)]
  exact dictGet_setKey_self fs "gps_lat" a

theorem enriched_lon (fs : List (String × Json)) (a b : Json) :
    dictGet (setKey (setKey fs "gps_lat" a) "gps_lon" b) "gps_lon" = some b :=
  dictGet_setKey_self _ "gps_lon" b

theorem enriched_other (fs : List (String × Json)) (a b : Json) (k : String)
    (h1 : k ≠ "gps_lat") (h2 : k ≠ "gps_lon") :
    dictGet (setKey (setKey fs "gps_lat" a) "gps_lon" b) k = dictGet fs k := by
  rw [dictGet_setKey_other _ _ _ _ h2, dictGet_setKey_other _ _ _ _ h1]

theorem enriched_keys (fs : List (String × Json)) (a b : Json) (k : String) :
    k ∈ (setKey (setKey fs "gps_lat" a) "gps_lon" b).map Prod.fst ↔
      k ∈ fs.map Prod.fst ∨ k = "gps_lat" ∨ k = "gps_lon" := by
  rw [mem_keys_setKey, mem_keys_setKey]; tauto

theorem dropWhile_head_false {α : Type} (p : α → Bool) (l : List α) (c : α)
    (cs : List α) (h : l.dropWhile p = c :: cs) : p c = false := by
  induction l with
  | nil => simp [List.dropWhile] at h
  | cons d ds ih =>
    by_cases hd : p d = true
    · rw [List.dropWhile_cons_of_pos hd] at h; exact ih h
    · rw [List.dropWhile_cons_of_neg hd] at h
      injection h with h1 h2
      subst h1
      simpa using hd

theorem dropWhile_eq_self_of_head {α : Type} (p : α → Bool) (l : List α)
    (h : ∀ c, l.head? = some c → p c = false) : l.dropWhile p = l := by
  cases l with
  | nil => rfl
  | cons d ds =>
    have hd := h d rfl
    rw [List.dropWhile_cons_of_neg (by simp [hd])]

theorem dropWhile_getLast? {α : Type} (p : α → Bool) (l : List α)
    (h : l.dropWhile p ≠ []) : (l.dropWhile p).getLast? = l.getLast? := by
  induction l with
  | nil => simp [List.dropWhile] at h
  | cons d ds ih =>
    by_cases hd : p d = true
    · rw [List.dropWhile_cons_of_pos hd] at h ⊢
      cases ds with
      | nil => simp [List.dropWhile] at h
      | cons e es => rw [List.getLast?_cons_cons]; exact ih h
    · rw [List.dropWhile_cons_of_neg hd]

theorem pyStripList_head_false (cs : List Char) (c : Char) (ds : List Char)
    (h : pyStripList cs = c :: ds) : isPySpace c = false := by
  unfold pyStripList at h
  have hBne : (cs.dropWhile isPySpace).reverse.dropWhile isPySpace ≠ [] := by
    intro hnil; rw [hnil] at h; simp at h
  have h1 : ((cs.dropWhile isPySpace).reverse.dropWhile isPySpace).getLast? = some c := by
    rw [← List.head?_reverse, h]; rfl
  have h2 : (cs.dropWhile isPySpace).reverse.getLast? = some c := by
    rw [← dropWhile_getLast? isPySpace _ hBne]; exact h1
  have h3 : (cs.dropWhile isPySpace).head? = some c := by
    rw [← List.getLast?_reverse]; exact h2
  cases hAc : cs.dropWhile isPySpace with
  | nil => rw [hAc] at h3; simp at h3
  | cons a as =>
    rw [hAc] at h3
    have ha : a = c := by simpa using h3
    subst ha
    exact dropWhile_head_false isPySpace cs a as hAc

theorem pyStripList_getLast_false (cs : List Char) (c : Char)
    (h : (pyStripList cs).getLast? = some c) : isPySpace c = false := by
  unfold pyStripList at h
  rw [List.getLast?_reverse] at h
  cases hB : (cs.dropWhile isPySpace).reverse.dropWhile isPySpace with
  | nil => rw [hB] at h; simp at h
  | cons b bs =>
    rw [hB] at h
    have hb : b = c := by simpa using h
    subst hb
    exact dropWhile_head_false isPySpace _ b bs hB

theorem pyStripList_idem (cs : List Char) :
    pyStripList (pyStripList cs) = pyStripList cs := by
  have hfront : (pyStripList cs).dropWhile isPySpace = pyStripList cs := by
    apply dropWhile_eq_self_of_head
    intro c hc
    cases hR : pyStripList cs with
    | nil => rw [hR] at hc; simp at hc
    | cons r rs =>
      rw [hR] at hc
      have hr : r = c := by simpa using hc
      subst hr
      exact pyStripList_head_false cs r rs hR
  have hback : (pyStripList cs).reverse.dropWhile isPySpace = (pyStripList cs).reverse := by
    apply dropWhile_eq_self_of_head
    intro c hc
    rw [List.head?_reverse] at hc
    exact pyStripList_getLast_false cs c hc
  show (((pyStripList cs).dropWhile isPySpace).reverse.dropWhile isPySpace).reverse
      = pyStripList cs
  rw [hfront, hback, List.reverse_reverse]

theorem pyStrip_idem (s : String) : pyStrip (pyStrip s) = pyStrip s := by
  show String.mk (pyStripList (pyStrip s).toList) = pyStrip s
  have ht : (pyStrip s).toList = pyStripList s.toList := rfl
  rw [ht, pyStripList_idem]
  rfl

theorem emit_mem_actsOfReads (reads : List ReadEvent) (s : String)
    (h : Act.emit s ∈ actsOfReads reads) : s ≠ "" ∧ pyStrip s = s := by
  induction reads with
  | nil => simp [actsOfReads] at h
  | cons ev rest ih =>
    cases ev with
    | ioFail => simp [actsOfReads] at h
    | line raw =>
      by_cases hr : pyStrip raw = ""
      · simp only [actsOfReads, if_pos hr] at h; exact ih h
      · simp only [actsOfReads, if_neg hr] at h
        rcases List.mem_cons.mp h with heq | hmem
        · injection heq with h1
          subst h1
          exact ⟨hr, pyStrip_idem raw⟩
        · exact ih hmem

theorem emit_mem_read_serial (atts : List Attempt) (s : String)
    (h : Act.emit s ∈ read_serial atts) : s ≠ "" ∧ pyStrip s = s := by
  induction atts with
  | nil => simp [read_serial] at h
  | cons a rest ih =>
    cases a with
    | openFail =>
      simp only [read_serial] at h
      rcases List.mem_cons.mp h with heq | hmem
      · cases heq
      · exact ih hmem
    | opened reads =>
      simp only [read_serial] at h
      rcases List.mem_append.mp h with hmem | hmem
      · exact emit_mem_actsOfReads reads s hmem
      · exact ih hmem

theorem read_serial_append (xs ys : List Attempt) :
    read_serial (xs ++ ys) = read_serial xs ++ read_serial ys := by
  induction xs with
  | nil => rfl
  | cons a rest ih =>
    cases a with
    | openFail => simp [read_serial, ih]
    | opened reads => simp [read_serial, ih]

theorem processRecord_not_obj (stationary gpsOpen : Bool) (latC lonC : ℚ)
    (tpv : TPV) (g : GpsNext) (j : Json) (h : j.isObj = false) :
    processRecord stationary gpsOpen latC lonC tpv ⟨RecordInput.parsed j, g⟩ =
      (⟨none, [LogMsg.unexpectedError]⟩, tpv) := by
  simp [processRecord, typeLogs_not_obj j h]

/-- Claim C2: a line that is not valid JSON (a `json.JSONDecodeError`) logs a
parse failure and publishes nothing, and the loop processes the remaining
records from the very same state, exactly as if the malformed line had never
been seen. -/
theorem c2_malformed_line_isolated (stationary gpsOpen : Bool) (latC lonC : ℚ)
    (tpv : TPV) (g : GpsNext) (rest : List RecordEnv) :
    runLoop stationary gpsOpen latC lonC tpv (⟨RecordInput.badJson, g⟩ :: rest) =
      ⟨none, [LogMsg.parseFail]⟩ ::
        runLoop stationary gpsOpen latC lonC tpv rest := rfl

/-- Claim C9: a line that is valid JSON but not an object (number, string,
array, boolean or null) is dropped by the generic per-record exception
handler — its log entry is the unexpected-error one, not the parse-error
one — nothing is published for it, and the loop continues with the
remaining records from an unchanged state. -/
theorem c9_nonobject_dropped (stationary gpsOpen : Bool) (latC lonC : ℚ)
    (tpv : TPV) (g : GpsNext) (rest : List RecordEnv) (j : Json)
    (h : j.isObj = false) :
    runLoop stationary gpsOpen latC lonC tpv (⟨RecordInput.parsed j, g⟩ :: rest) =
      ⟨none, [LogMsg.unexpectedError]⟩ ::
        runLoop stationary gpsOpen latC lonC tpv rest
    ∧ LogMsg.unexpectedError ≠ LogMsg.parseFail := by
  constructor
  · simp [runLoop, processRecord_not_obj stationary gpsOpen latC lonC tpv g j h]
  · decide

theorem c9_witness :
    runLoop true false 0 0 initTPV
        [⟨RecordInput.parsed (Json.num 5), GpsNext.noData⟩] =
      ⟨none, [LogMsg.unexpectedError]⟩ :: runLoop true false 0 0 initTPV []
    ∧ LogMsg.unexpectedError ≠ LogMsg.parseFail :=
  c9_nonobject_dropped true false 0 0 initTPV GpsNext.noData [] (Json.num 5) rfl

/-- Claim C4: in continuous (mobile) mode, when gpsd reports no pending fix
for the current record, the published record—whatever the caches or the
`DataStream` state accumulated from previous records hold—carries the
default coordinates `(0.0, 0.0)`, not any previous fix. -/
theorem c4_nodata_defaults (latC lonC : ℚ) (tpv : TPV) (inp : RecordInput) (o : Json)
    (h : (processRecord false true latC lonC tpv
      ⟨inp, GpsNext.noData⟩).1.published = some o) :
    jGet o "gps_lat" = some (Json.num 0) ∧ jGet o "gps_lon" = some (Json.num 0) := by
  cases inp with
  | badJson => simp [processRecord] at h
  | parsed j =>
    cases j with
    | obj fs =>
      obtain ⟨logs, htl, rfl⟩ :=
        published_some_inv false true latC lonC tpv GpsNext.noData fs o h
      exact ⟨enriched_lat fs _ _, enriched_lon fs _ _⟩
    | null =>
      rw [processRecord_not_obj false true latC lonC tpv GpsNext.noData Json.null rfl] at h
      simp at h
    | bool b =>
      rw [processRecord_not_obj false true latC lonC tpv GpsNext.noData (Json.bool b) rfl] at h
      simp at h
    | num q =>
      rw [processRecord_not_obj false true latC lonC tpv GpsNext.noData (Json.num q) rfl] at h
      simp at h
    | str t =>
      rw [processRecord_not_obj false true latC lonC tpv GpsNext.noData (Json.str t) rfl] at h
      simp at h
    | arr xs =>
      rw [processRecord_not_obj false true latC lonC tpv GpsNext.noData (Json.arr xs) rfl] at h
      simp at h

theorem c4_witness :
    jGet (Json.obj [("a", Json.num 1), ("gps_lat", Json.num 0), ("gps_lon", Json.num 0)])
        "gps_lat" = some (Json.num 0) ∧
    jGet (Json.obj [("a", Json.num 1), ("gps_lat", Json.num 0), ("gps_lon", Json.num 0)])
        "gps_lon" = some (Json.num 0) :=
  c4_nodata_defaults 7 9 ⟨some 3, some 4⟩
    (RecordInput.parsed (Json.obj [("a", Json.num 1)])) _ rfl

theorem runLoop_stationary_published (latC lonC : ℚ) (tpv : TPV)
    (envs : List RecordEnv) (out : RecOut) (o : Json)
    (hmem : out ∈ runLoop true false latC lonC tpv envs)
    (hpub : out.published = some o) :
    jGet o "gps_lat" = some (Json.num latC) ∧
    jGet o "gps_lon" = some (Json.num lonC) := by
  induction envs generalizing tpv with
  | nil => simp [runLoop] at hmem
  | cons env rest ih =>
    simp only [runLoop] at hmem
    rcases List.mem_cons.mp hmem with heq | hmem'
    · obtain ⟨inp, g⟩ := env
      cases inp with
      | badJson => rw [heq] at hpub; simp [processRecord] at hpub
      | parsed j =>
        cases j with
        | obj fs =>
          rw [heq] at hpub
          obtain ⟨logs, htl, rfl⟩ :=
            published_some_inv true false latC lonC tpv g fs o hpub
          exact ⟨enriched_lat fs _ _, enriched_lon fs _ _⟩
        | null =>
          rw [heq, processRecord_not_obj true false latC lonC tpv g Json.null rfl]
            at hpub
          simp at hpub
        | bool b =>
          rw [heq, processRecord_not_obj true false latC lonC tpv g (Json.bool b) rfl]
            at hpub
          simp at hpub
        | num q =>
          rw [heq, processRecord_not_obj true false latC lonC tpv g (Json.num q) rfl]
            at hpub
          simp at hpub
        | str t =>
          rw [heq, processRecord_not_obj true false latC lonC tpv g (Json.str t) rfl]
            at hpub
          simp at hpub
        | arr xs =>
          rw [heq, processRecord_not_obj true false latC lonC tpv g (Json.arr xs) rfl]
            at hpub
          simp at hpub
    · exact ih _ hmem'

/-- Claim C3: in stationary mode the fix is taken once at startup, and every
record published anywhere in the run carries exactly that startup snapshot;
in particular any two published records — from different lines, different
loop states — have identical `gps_lat` and `gps_lon`. -/
theorem c3_stationary_constant_fix (startGps : GpsNext) (envs : List RecordEnv)
    (out1 out2 : RecOut) (o1 o2 : Json)
    (h1 : out1 ∈ main true startGps envs) (h2 : out2 ∈ main true startGps envs)
    (hp1 : out1.published = some o1) (hp2 : out2.published = some o2) :
    (jGet o1 "gps_lat" = some (Json.num (get_gps_location startGps initTPV).1.1) ∧
     jGet o1 "gps_lon" = some (Json.num (get_gps_location startGps initTPV).1.2)) ∧
    jGet o1 "gps_lat" = jGet o2 "gps_lat" ∧
    jGet o1 "gps_lon" = jGet o2 "gps_lon" := by
  have h1' : out1 ∈ runLoop true false (get_gps_location startGps initTPV).1.1
      (get_gps_location startGps initTPV).1.2 initTPV envs := h1
  have h2' : out2 ∈ runLoop true false (get_gps_location startGps initTPV).1.1
      (get_gps_location startGps initTPV).1.2 initTPV envs := h2
  obtain ⟨e1lat, e1lon⟩ := runLoop_stationary_published _ _ _ _ _ _ h1' hp1
  obtain ⟨e2lat, e2lon⟩ := runLoop_stationary_published _ _ _ _ _ _ h2' hp2
  exact ⟨⟨e1lat, e1lon⟩, e1lat.trans e2lat.symm, e1lon.trans e2lon.symm⟩

theorem c3_witness :
    (jGet (Json.obj [("gps_lat", Json.num 5), ("gps_lon", Json.num 6)]) "gps_lat" =
        some (Json.num 5) ∧
     jGet (Json.obj [("gps_lat", Json.num 5), ("gps_lon", Json.num 6)]) "gps_lon" =
        some (Json.num 6)) ∧
    jGet (Json.obj [("gps_lat", Json.num 5), ("gps_lon", Json.num 6)]) "gps_lat" =
      jGet (Json.obj [("gps_lat", Json.num 5), ("gps_lon", Json.num 6)]) "gps_lat" ∧
    jGet (Json.obj [("gps_lat", Json.num 5), ("gps_lon", Json.num 6)]) "gps_lon" =
      jGet (Json.obj [("gps_lat", Json.num 5), ("gps_lon", Json.num 6)]) "gps_lon" := by
  have hm : main true (GpsNext.report ⟨some 5, some 6⟩)
      [⟨RecordInput.parsed (Json.obj []), GpsNext.noData⟩] =
      [⟨some (Json.obj [("gps_lat", Json.num 5), ("gps_lon", Json.num 6)]), []⟩] := rfl
  exact c3_stationary_constant_fix (GpsNext.report ⟨some 5, some 6⟩)
    [⟨RecordInput.parsed (Json.obj []), GpsNext.noData⟩]
    ⟨some (Json.obj [("gps_lat", Json.num 5), ("gps_lon", Json.num 6)]), []⟩
    ⟨some (Json.obj [("gps_lat", Json.num 5), ("gps_lon", Json.num 6)]), []⟩
    (Json.obj [("gps_lat", Json.num 5), ("gps_lon", Json.num 6)])
    (Json.obj [("gps_lat", Json.num 5), ("gps_lon", Json.num 6)])
    (by rw [hm]; exact List.mem_singleton_self _)
    (by rw [hm]; exact List.mem_singleton_self _) rfl rfl

/-- Claim C7: for a `nodeAlert` record the nested status text is tested
against `"NEW CONTACT LOCK"`, `"LOCK UPDATE"`, `"LOST CONTACT LOCK"` in that
order; the first match alone determines the single log entry emitted, no
match emits none, and the defensive defaults mean an absent `msg` object (or
absent `stat` field) behaves as the empty status string instead of raising:
the hypotheses cover those cases with `m = []` resp. `stat = ""`. -/
theorem c7_alert_status_dispatch (fields m : List (String × Json)) (stat : String)
    (hT : dictGet fields "type" = some (Json.str "nodeAlert"))
    (hM : (dictGet fields "msg").getD (Json.obj []) = Json.obj m)
    (hS : (dictGet m "stat").getD (Json.str "") = Json.str stat) :
    typeLogs (Json.obj fields) = Except.ok
      (if pyInStr "NEW CONTACT LOCK" stat then [LogMsg.newContact]
       else if pyInStr "LOCK UPDATE" stat then [LogMsg.lockUpdate]
       else if pyInStr "LOST CONTACT LOCK" stat then [LogMsg.lostContact]
       else []) := by
  have h1 : Json.eqStr ((dictGet fields "type").getD (Json.str "")) "nodeMsg"
      = false := by rw [hT]; rfl
  have h2 : Json.eqStr ((dictGet fields "type").getD (Json.str "")) "nodeAlert"
      = true := by rw [hT]; rfl
  simp [typeLogs, pyGet, h1, h2, hM, hS, statLogs_str]

theorem c7_witness :
    typeLogs (Json.obj [("type", Json.str "nodeAlert"),
        ("msg", Json.obj [("stat", Json.str "A LOCK UPDATE B")])]) =
      Except.ok [LogMsg.lockUpdate] := by
  have h := c7_alert_status_dispatch
    [("type", Json.str "nodeAlert"),
      ("msg", Json.obj [("stat", Json.str "A LOCK UPDATE B")])]
    [("stat", Json.str "A LOCK UPDATE B")] "A LOCK UPDATE B" rfl rfl rfl
  simpa using h

/-- Claim C1 (counterexample): the line
`{"type": "nodeAlert", "msg": 5}` parses as well-formed JSON, yet the
enrichment step publishes nothing for it — `data.get("msg", {}).get("stat",
"")` raises `AttributeError` on the non-dict `msg` value and the blanket
handler drops the record — refuting the claim that every well-formed JSON
input yields a published enriched record. -/
theorem c1_counterexample :
    main true GpsNext.noData
      [⟨RecordInput.parsed (Json.obj
          [("type", Json.str "nodeAlert"), ("msg", Json.num 5)]),
        GpsNext.noData⟩] =
      [⟨none, [LogMsg.unexpectedError]⟩] := rfl

/-- Claim C1 (amended): for every input line that parses as a JSON object
and does not trip the `nodeAlert` status defect (a `nodeAlert` whose
defaulted `msg` value is not an object, or whose defaulted `stat` value does
not support the `in` test), a record is published containing every input
field — values preserved except at the two coordinate keys — plus exactly
the fields `gps_lat` and `gps_lon`, and both added values are numeric. -/
theorem c1_amended_enrich_publishes (stationary gpsOpen : Bool) (latC lonC : ℚ)
    (tpv : TPV) (g : GpsNext) (fields : List (String × Json))
    (h : alertPathOk fields = true) :
    ∃ o, (processRecord stationary gpsOpen latC lonC tpv
        ⟨RecordInput.parsed (Json.obj fields), g⟩).1.published = some o ∧
      (∀ k, k ≠ "gps_lat" → k ≠ "gps_lon" → jGet o k = dictGet fields k) ∧
      (∀ k, k ∈ jKeys o ↔ k ∈ fields.map Prod.fst ∨ k = "gps_lat" ∨ k = "gps_lon") ∧
      (∃ la lo : ℚ, jGet o "gps_lat" = some (Json.num la) ∧
        jGet o "gps_lon" = some (Json.num lo)) := by
  obtain ⟨logs, htl⟩ := typeLogs_ok_of_alertPathOk fields h
  rw [processRecord_parsed_obj_ok stationary gpsOpen latC lonC tpv g fields logs htl]
  refine ⟨_, rfl, ?_, ?_, ?_⟩
  · intro k hk1 hk2
    exact enriched_other fields _ _ k hk1 hk2
  · intro k
    exact enriched_keys fields _ _ k
  · exact ⟨_, _, enriched_lat fields _ _, enriched_lon fields _ _⟩

theorem c1_witness :
    ∃ o, (processRecord true false 1 2 initTPV
        ⟨RecordInput.parsed (Json.obj [("type", Json.str "nodeMsg"), ("x", Json.null)]),
          GpsNext.noData⟩).1.published = some o ∧
      (∀ k, k ≠ "gps_lat" → k ≠ "gps_lon" →
        jGet o k = dictGet [("type", Json.str "nodeMsg"), ("x", Json.null)] k) ∧
      (∀ k, k ∈ jKeys o ↔
        k ∈ [("type", Json.str "nodeMsg"), ("x", Json.null)].map Prod.fst ∨
          k = "gps_lat" ∨ k = "gps_lon") ∧
      (∃ la lo : ℚ, jGet o "gps_lat" = some (Json.num la) ∧
        jGet o "gps_lon" = some (Json.num lo)) :=
  c1_amended_enrich_publishes true false 1 2 initTPV GpsNext.noData
    [("type", Json.str "nodeMsg"), ("x", Json.null)] rfl

/-- Claim C8 (counterexample): the well-formed record
`{"type": "nodeAlert", "msg": {"stat": 7}}` does not proceed through
enrichment and publishing — the `in` test on the numeric `stat` raises
`TypeError` and the record is dropped — refuting the claim that the event
type never short-circuits enrichment or publishing for well-formed
records. -/
theorem c8_counterexample :
    main true GpsNext.noData
      [⟨RecordInput.parsed (Json.obj [("type", Json.str "nodeAlert"),
          ("msg", Json.obj [("stat", Json.num 7)])]), GpsNext.noData⟩] =
      [⟨none, [LogMsg.unexpectedError]⟩] := rfl

/-- Claim C8 (amended): for every JSON-object record outside the
`nodeAlert` status defect — so in particular every `nodeMsg` record, every
`nodeAlert` record with a well-typed status, and every record of any other
type — enrichment does not short-circuit on the event type: the record is
published with its own fields passed through (unchanged off the coordinate
keys) and exactly the two coordinate fields set to the mode-selected
fix. -/
theorem c8_amended_type_no_shortcircuit (stationary gpsOpen : Bool)
    (latC lonC : ℚ) (tpv : TPV) (g : GpsNext) (fields : List (String × Json))
    (h : alertPathOk fields = true) :
    ∃ o, (processRecord stationary gpsOpen latC lonC tpv
        ⟨RecordInput.parsed (Json.obj fields), g⟩).1.published = some o ∧
      (∀ k, k ≠ "gps_lat" → k ≠ "gps_lon" → jGet o k = dictGet fields k) ∧
      jGet o "gps_lat" = some (Json.num
        (if !stationary && gpsOpen then (get_gps_location g tpv).1.1 else latC)) ∧
      jGet o "gps_lon" = some (Json.num
        (if !stationary && gpsOpen then (get_gps_location g tpv).1.2 else lonC)) ∧
      (∀ k, k ∈ jKeys o ↔ k ∈ fields.map Prod.fst ∨ k = "gps_lat" ∨ k = "gps_lon") := by
  obtain ⟨logs, htl⟩ := typeLogs_ok_of_alertPathOk fields h
  rw [processRecord_parsed_obj_ok stationary gpsOpen latC lonC tpv g fields logs htl]
  refine ⟨_, rfl, ?_, ?_, ?_, ?_⟩
  · intro k hk1 hk2
    exact enriched_other fields _ _ k hk1 hk2
  · exact enriched_lat fields _ _
  · exact enriched_lon fields _ _
  · intro k
    exact enriched_keys fields _ _ k

theorem c8_witness :
    ∃ o, (processRecord true false 3 4 initTPV
        ⟨RecordInput.parsed (Json.obj [("type", Json.str "nodeAlert"),
            ("msg", Json.obj [("stat", Json.str "LOST CONTACT LOCK!")])]),
          GpsNext.noData⟩).1.published = some o ∧
      (∀ k, k ≠ "gps_lat" → k ≠ "gps_lon" →
        jGet o k = dictGet [("type", Json.str "nodeAlert"),
            ("msg", Json.obj [("stat", Json.str "LOST CONTACT LOCK!")])] k) ∧
      jGet o "gps_lat" = some (Json.num
        (if !true && false then (get_gps_location GpsNext.noData initTPV).1.1 else 3)) ∧
      jGet o "gps_lon" = some (Json.num
        (if !true && false then (get_gps_location GpsNext.noData initTPV).1.2 else 4)) ∧
      (∀ k, k ∈ jKeys o ↔
        k ∈ [("type", Json.str "nodeAlert"),
            ("msg", Json.obj [("stat", Json.str "LOST CONTACT LOCK!")])].map Prod.fst ∨
          k = "gps_lat" ∨ k = "gps_lon") :=
  c8_amended_type_no_shortcircuit true false 3 4 initTPV GpsNext.noData
    [("type", Json.str "nodeAlert"),
      ("msg", Json.obj [("stat", Json.str "LOST CONTACT LOCK!")])] rfl

/-- Claim C10: whatever values an input object already holds under
`gps_lat` or `gps_lon`, the published record's coordinates are the fix
selected at enrichment time (fresh fix in continuous mode with an open
connection, the caches otherwise) — the input's own values are
overwritten. -/
theorem c10_overwrite_fix (stationary gpsOpen : Bool) (latC lonC : ℚ)
    (tpv : TPV) (g : GpsNext) (fields : List (String × Json)) (o : Json)
    (_h : (∃ v, dictGet fields "gps_lat" = some v) ∨
      (∃ w, dictGet fields "gps_lon" = some w))
    (hp : (processRecord stationary gpsOpen latC lonC tpv
      ⟨RecordInput.parsed (Json.obj fields), g⟩).1.published = some o) :
    jGet o "gps_lat" = some (Json.num
      (if !stationary && gpsOpen then (get_gps_location g tpv).1.1 else latC)) ∧
    jGet o "gps_lon" = some (Json.num
      (if !stationary && gpsOpen then (get_gps_location g tpv).1.2 else lonC)) := by
  obtain ⟨logs, htl, rfl⟩ :=
    published_some_inv stationary gpsOpen latC lonC tpv g fields o hp
  exact ⟨enriched_lat fields _ _, enriched_lon fields _ _⟩

theorem c10_witness :
    jGet (Json.obj [("gps_lat", Json.num 3), ("gps_lon", Json.num 4)]) "gps_lat" =
      some (Json.num
        (if !true && false then (get_gps_location GpsNext.noData initTPV).1.1 else 3)) ∧
    jGet (Json.obj [("gps_lat", Json.num 3), ("gps_lon", Json.num 4)]) "gps_lon" =
      some (Json.num
        (if !true && false then (get_gps_location GpsNext.noData initTPV).1.2 else 4)) :=
  c10_overwrite_fix true false 3 4 initTPV GpsNext.noData
    [("gps_lat", Json.num 99)]
    (Json.obj [("gps_lat", Json.num 3), ("gps_lon", Json.num 4)])
    (Or.inl ⟨Json.num 99, rfl⟩) rfl

/-- Claim C5: the reconnecting stream never ends on a transport failure —
processing a trace distributes over its parts, so failures in a prefix never
truncate what follows; a failed open sleeps exactly `RECONNECT_DELAY` (5)
seconds before the next attempt; a read failure abandons the session with
the same fixed backoff; and after any prefix of failures the next
successfully read (non-blank) line is still emitted to the consumer. -/
theorem c5_reconnecting_stream (pre post : List Attempt) (rs : List ReadEvent)
    (s : String) (h : pyStrip s ≠ "") :
    read_serial (pre ++ post) = read_serial pre ++ read_serial post ∧
    read_serial (Attempt.openFail :: post) =
      Act.sleep RECONNECT_DELAY :: read_serial post ∧
    actsOfReads (ReadEvent.ioFail :: rs) = [Act.sleep RECONNECT_DELAY] ∧
    Act.emit (pyStrip s) ∈ read_serial (pre ++ [Attempt.opened [ReadEvent.line s]]) := by
  refine ⟨read_serial_append pre post, rfl, rfl, ?_⟩
  rw [read_serial_append]
  apply List.mem_append_right
  simp [read_serial, actsOfReads, h]

theorem c5_witness :
    read_serial ([Attempt.openFail] ++ [Attempt.opened [ReadEvent.line "x"]]) =
      read_serial [Attempt.openFail] ++ read_serial [Attempt.opened [ReadEvent.line "x"]] ∧
    read_serial (Attempt.openFail :: [Attempt.opened [ReadEvent.line "x"]]) =
      Act.sleep RECONNECT_DELAY :: read_serial [Attempt.opened [ReadEvent.line "x"]] ∧
    actsOfReads (ReadEvent.ioFail :: [ReadEvent.line "y"]) = [Act.sleep RECONNECT_DELAY] ∧
    Act.emit (pyStrip " ok ") ∈
      read_serial ([Attempt.openFail] ++ [Attempt.opened [ReadEvent.line " ok "]]) :=
  c5_reconnecting_stream [Attempt.openFail] [Attempt.opened [ReadEvent.line "x"]]
    [ReadEvent.line "y"] " ok " (by decide)

/-- Claim C6: every record the stream emits to the consumer is non-empty and
already trimmed (it is a fixed point of `strip`, having been produced by
decode-and-strip), and a read whose stripped result is empty is silently
skipped — the action trace is the same as if that read had not happened. -/
theorem c6_emitted_trimmed_nonempty (atts : List Attempt) (s raw : String)
    (rest : List ReadEvent) (h : Act.emit s ∈ read_serial atts)
    (hraw : pyStrip raw = "") :
    (s ≠ "" ∧ pyStrip s = s) ∧
    actsOfReads (ReadEvent.line raw :: rest) = actsOfReads rest := by
  refine ⟨emit_mem_read_serial atts s h, ?_⟩
  simp [actsOfReads, hraw]

theorem c6_witness :
    (("hi" : String) ≠ "" ∧ pyStrip "hi" = "hi") ∧
    actsOfReads (ReadEvent.line " \t " :: [ReadEvent.line "z"]) =
      actsOfReads [ReadEvent.line "z"] :=
  c6_emitted_trimmed_nonempty [Attempt.opened [ReadEvent.line " hi "]] "hi" " \t "
    [ReadEvent.line "z"] (by decide) (by decide)

end FpvDetector
